/-
  Verification of the Australian working-days HTTP service (`src/main.py`).

  Shallow embedding:
  * a calendar date is its proleptic-Gregorian ordinal (`Nat`, as Python's
    `date.toordinal`, with 0001-01-01 = 1);
  * the external holiday oracle (`holidays.Australia`, an external
    collaborator of the repository) is a parameter
    `HolidaySource : Option String → Nat → Bool` giving membership of a
    date in the holiday set for a jurisdiction argument;
  * `datetime.strptime(s, "%Y-%m-%d")` is modelled faithfully to CPython's
    `_strptime` regex table: a year of exactly four digits, a month of one
    or two digits with value 1..12, a day of one or two digits with value
    1..31, separated by literal hyphens, the whole string consumed, then
    the `datetime` constructor's calendar-validity check;
  * `HTTPException` raising is modelled with `Except`.
-/
import Mathlib

/-! ## Calendar arithmetic (Python `datetime` model) -/

/-- Gregorian leap-year test, as Python `calendar.isleap`. -/
def isLeapYear (y : Nat) : Bool :=
  y % 4 == 0 && (y % 100 != 0 || y % 400 == 0)

/-- Number of days in month `m` (1-12) of year `y`. -/
def daysInMonth (y m : Nat) : Nat :=
  if m = 2 then (if isLeapYear y then 29 else 28)
  else if m = 4 ∨ m = 6 ∨ m = 9 ∨ m = 11 then 30
  else 31

/-- Days before January 1st of year `y`, as Python `datetime._days_before_year`. -/
def daysBeforeYear (y : Nat) : Nat :=
  (y - 1) * 365 + (y - 1) / 4 - (y - 1) / 100 + (y - 1) / 400

/-- Days in year `y` preceding the first of month `m`. -/
def daysBeforeMonth (y m : Nat) : Nat :=
  ((List.range (m - 1)).map (fun i => daysInMonth y (i + 1))).foldl (· + ·) 0

/-- Proleptic-Gregorian ordinal of the date `y-m-d`, as Python `date.toordinal`
(0001-01-01 is ordinal 1). -/
def toOrdinal (y m d : Nat) : Nat :=
  daysBeforeYear y + daysBeforeMonth y m + d

/-- Python `date.weekday`: 0 = Monday, ..., 6 = Sunday. -/
def weekday (o : Nat) : Nat := (o + 6) % 7

/-- Python `date.isoweekday`: 1 = Monday, ..., 7 = Sunday. -/
def isoWeekday (o : Nat) : Nat := weekday o + 1

/-- Scan of months used to convert a zero-based day-of-year back to a
month/day pair; the fuel argument bounds the scan at twelve months. -/
def monthScan (y : Nat) : Nat → Nat → Nat → Nat × Nat
  | m, n, 0 => (m, n + 1)
  | m, n, fuel + 1 =>
      if n < daysInMonth y m then (m, n + 1)
      else monthScan y (m + 1) (n - daysInMonth y m) fuel

/-- Inverse of `toOrdinal`, as Python `datetime._ord2ymd`. -/
def fromOrdinal (o : Nat) : Nat × Nat × Nat :=
  let n0 := o - 1
  let n400 := n0 / 146097
  let r1 := n0 % 146097
  let n100 := r1 / 36524
  let r2 := r1 % 36524
  let n4 := r2 / 1461
  let r3 := r2 % 1461
  let n1 := r3 / 365
  let r4 := r3 % 365
  if n1 = 4 ∨ n100 = 4 then
    (400 * n400 + 100 * n100 + 4 * n4 + n1, 12, 31)
  else
    let y := 400 * n400 + 100 * n100 + 4 * n4 + n1 + 1
    let md := monthScan y 1 r4 11
    (y, md.1, md.2)

/-- Zero-pad a numeral to two digits. -/
def pad2 (n : Nat) : String :=
  if n < 10 then "0" ++ toString n else toString n

/-- Zero-pad a numeral to four digits. -/
def pad4 (n : Nat) : String :=
  if n < 10 then "000" ++ toString n
  else if n < 100 then "00" ++ toString n
  else if n < 1000 then "0" ++ toString n
  else toString n

/-- Python `date.strftime("%Y-%m-%d")` on the date with ordinal `o`. -/
def strftimeYMD (o : Nat) : String :=
  let ymd := fromOrdinal o
  pad4 ymd.1 ++ "-" ++ pad2 ymd.2.1 ++ "-" ++ pad2 ymd.2.2

/-! ## `strptime` model -/

/-- Numeric value of a decimal digit character. -/
def digitVal (c : Char) : Nat := c.toNat - 48

/-- CPython `_strptime` month step for the format fragment `%m-`: the regex
alternation `(1[0-2]|0[1-9]|[1-9])` followed by the literal hyphen.  Returns
the month value and the characters after the hyphen. -/
def readMonthDash : List Char → Option (Nat × List Char)
  | a :: b :: c :: rest =>
      if b = '-' then
        if a.isDigit ∧ 1 ≤ digitVal a then some (digitVal a, c :: rest) else none
      else if c = '-' then
        if a.isDigit ∧ b.isDigit ∧ 1 ≤ digitVal a * 10 + digitVal b ∧
            digitVal a * 10 + digitVal b ≤ 12 then
          some (digitVal a * 10 + digitVal b, rest)
        else none
      else none
  | [a, b] =>
      if b = '-' then
        if a.isDigit ∧ 1 ≤ digitVal a then some (digitVal a, []) else none
      else none
  | _ => none

/-- CPython `_strptime` day step for the trailing format fragment `%d`: the
regex alternation `(3[01]|[12]\d|0[1-9]|[1-9])`, which must consume the rest
of the string (`_strptime` rejects unconsumed input). -/
def readDayEnd : List Char → Option Nat
  | [a] => if a.isDigit ∧ 1 ≤ digitVal a then some (digitVal a) else none
  | [a, b] =>
      if a.isDigit ∧ b.isDigit ∧ 1 ≤ digitVal a * 10 + digitVal b ∧
          digitVal a * 10 + digitVal b ≤ 31 then
        some (digitVal a * 10 + digitVal b)
      else none
  | _ => none

/-- CPython `_strptime` match of the format `"%Y-%m-%d"`: a year of exactly
four digits (`\d\d\d\d`), a hyphen, then the month and day steps. -/
def strptimeYMD : List Char → Option (Nat × Nat × Nat)
  | y1 :: y2 :: y3 :: y4 :: s :: rest =>
      if s = '-' ∧ y1.isDigit ∧ y2.isDigit ∧ y3.isDigit ∧ y4.isDigit then
        match readMonthDash rest with
        | some md =>
            match readDayEnd md.2 with
            | some d =>
                some (((digitVal y1 * 10 + digitVal y2) * 10 + digitVal y3) * 10
                        + digitVal y4, md.1, d)
            | none => none
        | none => none
      else none
  | _ => none

/-- FastAPI `HTTPException`, reduced to the fields the service uses. -/
structure HTTPException where
  status_code : Nat
  detail : String
deriving DecidableEq

/-- `parse_date` from `src/main.py`: `datetime.strptime(date_str, "%Y-%m-%d")`,
turning any `ValueError` (regex mismatch or the `datetime` constructor's
calendar-validity rejection, which requires `1 ≤ year` and
`day ≤ daysInMonth year month`) into a 400 `HTTPException`. -/
def parse_date (date_str : String) : Except HTTPException Nat :=
  match strptimeYMD date_str.data with
  | some ymd =>
      if 1 ≤ ymd.1 ∧ ymd.2.2 ≤ daysInMonth ymd.1 ymd.2.1 then
        Except.ok (toOrdinal ymd.1 ymd.2.1 ymd.2.2)
      else Except.error ⟨400, "Invalid date format. Use YYYY-MM-DD"⟩
  | none => Except.error ⟨400, "Invalid date format. Use YYYY-MM-DD"⟩

/-! ## Working-day engine -/

/-- The external holiday oracle: membership of a date (ordinal) in the
holiday set produced for a jurisdiction argument.  `src/main.py` obtains it
from the external `holidays` package (`Australia(years=range(2000, 2050),
prov=state)`); the engine is parameterized by it. -/
def HolidaySource : Type := Option String → Nat → Bool

/-- `get_holidays` from `src/main.py`: the holiday set (membership test) for
the given jurisdiction argument, as produced by the oracle. -/
def get_holidays (H : HolidaySource) (state : Option String) : Nat → Bool :=
  H state

/-- `is_working_day` from `src/main.py`:
`date.weekday() < 5 and date not in holidays`. -/
def is_working_day (H : HolidaySource) (date : Nat) (state : Option String) : Bool :=
  decide (weekday date < 5) && !(get_holidays H state date)

/-- Python `range((end_date - start_date).days + 1)` length: `datetime`
subtraction may be negative, in which case the range is empty. -/
def rangeLen (s e : Nat) : Nat := ((e : Int) - (s : Int) + 1).toNat

/-- `count_working_days` from `src/main.py`:
`sum(1 for day in range((end_date - start_date).days + 1)
     if is_working_day(start_date + timedelta(days=day), state))`. -/
def count_working_days (H : HolidaySource) (start_date end_date : Nat)
    (state : Option String) : Nat :=
  (List.range (rangeLen start_date end_date)).countP
    (fun day => is_working_day H (start_date + day) state)

/-- The `working_days` list comprehension built in `get_working_days_list`
(`src/main.py` lines 90-94):
`[start + timedelta(days=x) for x in range((end - start).days + 1)
  if is_working_day(start + timedelta(days=x), state)]`. -/
def working_days_list (H : HolidaySource) (start endd : Nat)
    (state : Option String) : List Nat :=
  ((List.range (rangeLen start endd)).filter
      (fun x => is_working_day H (start + x) state)).map
    (fun x => start + x)

/-! ## HTTP endpoints -/

/-- `AUSTRALIAN_STATES` from `src/main.py`. -/
def AUSTRALIAN_STATES : List String :=
  ["ACT", "NSW", "NT", "QLD", "SA", "TAS", "VIC", "WA"]

/-- The guard `state and state not in AUSTRALIAN_STATES` of `src/main.py`:
Python truthiness makes it `False` for `None` and for the empty string. -/
def invalidState : Option String → Bool
  | none => false
  | some s => s != "" && !(AUSTRALIAN_STATES.contains s)

/-- The `GET /working-days` handler `get_working_days` from `src/main.py`;
the JSON body `{"working_days": n}` is modelled by the count `n` itself. -/
def get_working_days (H : HolidaySource) (start_date end_date : String)
    (state : Option String) : Except HTTPException Nat :=
  match parse_date start_date with
  | .error err => .error err
  | .ok start =>
      match parse_date end_date with
      | .error err => .error err
      | .ok endd =>
          if start > endd then
            .error ⟨400, "Start date must be before or equal to end date"⟩
          else if invalidState state then
            .error ⟨400, "Invalid state. Must be one of "
                      ++ String.intercalate ", " AUSTRALIAN_STATES⟩
          else
            .ok (count_working_days H start endd state)

/-- The `GET /working-days-list` handler `get_working_days_list` from
`src/main.py`; the JSON body is modelled by the list of
`day.strftime("%Y-%m-%d")` strings. -/
def get_working_days_list (H : HolidaySource) (start_date end_date : String)
    (state : Option String) : Except HTTPException (List String) :=
  match parse_date start_date with
  | .error err => .error err
  | .ok start =>
      match parse_date end_date with
      | .error err => .error err
      | .ok endd =>
          if start > endd then
            .error ⟨400, "Start date must be before or equal to end date"⟩
          else if invalidState state then
            .error ⟨400, "Invalid state. Must be one of "
                      ++ String.intercalate ", " AUSTRALIAN_STATES⟩
          else
            .ok ((working_days_list H start endd state).map strftimeYMD)

/-! ## Concrete oracle instances used in witnesses and counterexamples -/

/-- Modelled from the spec: a concrete instance of the external Holiday
Source (spec section 6; section 8 boundary scenario) recording that New
Year's Day, January 1st, is a gazetted public holiday for every
jurisdiction argument — including the absent one, since `holidays.Australia`
with `prov=None` still contains the national holidays — and sampling no
other holiday.  Used only to instantiate theorems that are quantified over
the oracle. -/
def specHolidays : HolidaySource := fun _ d =>
  (fromOrdinal d).2.1 == 1 && (fromOrdinal d).2.2 == 1

/-- An oracle instance whose holiday set is nonempty exactly for the
jurisdiction argument `some ""`: it separates a request that forwards the
empty string to the oracle from one that forwards `None`. -/
def emptyFlagOracle : HolidaySource := fun st _ => st == some ""

/-! ## Spec-side definitions for the date-format claims -/

/-- Value of a list of decimal digit characters. -/
def digitsToNat (l : List Char) : Nat :=
  l.foldl (fun a c => a * 10 + digitVal c) 0

/-- Modelled from the spec: the fixed zero-padded `YYYY-MM-DD` pattern named
by the `parse_date` contract — four digits, a hyphen, two digits, a hyphen,
two digits, and nothing else. -/
def matchesFixedYMD (s : String) : Bool :=
  match s.data with
  | [c1, c2, c3, c4, k1, c5, c6, k2, c7, c8] =>
      c1.isDigit && c2.isDigit && c3.isDigit && c4.isDigit && k1 == '-' &&
      c5.isDigit && c6.isDigit && k2 == '-' && c7.isDigit && c8.isDigit
  | _ => false

/-- The lenient date shape `datetime.strptime(s, "%Y-%m-%d")` actually
accepts (amended claim C7): exactly four year digits, a one-or-two-digit
month with value 1..12, and a one-or-two-digit day with value 1..31,
separated by hyphens, with the whole string consumed.  Stated independently
of `strptimeYMD` as a decomposition of the character list. -/
def LenientYMD (l : List Char) (y m d : Nat) : Prop :=
  ∃ y1 y2 y3 y4 mc dc,
    l = y1 :: y2 :: y3 :: y4 :: '-' :: (mc ++ '-' :: dc) ∧
    y1.isDigit = true ∧ y2.isDigit = true ∧ y3.isDigit = true ∧ y4.isDigit = true ∧
    (∀ c ∈ mc, c.isDigit = true) ∧ (mc.length = 1 ∨ mc.length = 2) ∧
    (∀ c ∈ dc, c.isDigit = true) ∧ (dc.length = 1 ∨ dc.length = 2) ∧
    y = digitsToNat [y1, y2, y3, y4] ∧
    m = digitsToNat mc ∧ 1 ≤ m ∧ m ≤ 12 ∧
    d = digitsToNat dc ∧ 1 ≤ d ∧ d ≤ 31

/-! ## Helper lemmas -/

theorem rangeLen_of_le {s e : Nat} (h : s ≤ e) : rangeLen s e = e + 1 - s := by
  unfold rangeLen; omega

theorem rangeLen_mono {s e ep : Nat} (h : e ≤ ep) : rangeLen s e ≤ rangeLen s ep := by
  unfold rangeLen; omega

/-! ## Claims about the engine -/

/-- Claim C1: for every validated range (`start ≤ end`) and every
jurisdiction argument, the integer returned by `count_working_days` equals
the length of the `working_days` list built in `get_working_days_list`;
both apply `is_working_day` to every date of the inclusive range. -/
theorem count_eq_list_length (H : HolidaySource) (s e : Nat) (st : Option String)
    (h : s ≤ e) :
    count_working_days H s e st = (working_days_list H s e st).length := by
  unfold count_working_days working_days_list
  rw [List.countP_eq_length_filter, List.length_map]

theorem count_eq_list_length_witness :
    toOrdinal 2024 1 1 ≤ toOrdinal 2024 1 7 ∧
    count_working_days specHolidays (toOrdinal 2024 1 1) (toOrdinal 2024 1 7) (some "NSW")
      = (working_days_list specHolidays (toOrdinal 2024 1 1) (toOrdinal 2024 1 7)
          (some "NSW")).length :=
  ⟨by decide, count_eq_list_length specHolidays _ _ _ (by decide)⟩

/-- Claim C2: for every date and jurisdiction argument, `is_working_day` is
true iff the date's ISO weekday is 1-5 (Monday-Friday) and the date is not a
member of the oracle's holiday set for that jurisdiction. -/
theorem is_working_day_iff (H : HolidaySource) (date : Nat) (state : Option String) :
    is_working_day H date state = true ↔
      (1 ≤ isoWeekday date ∧ isoWeekday date ≤ 5) ∧
        get_holidays H state date = false := by
  simp only [is_working_day, isoWeekday, weekday, Bool.and_eq_true,
    decide_eq_true_eq, Bool.not_eq_true']
  constructor
  · rintro ⟨h1, h2⟩
    exact ⟨⟨by omega, by omega⟩, h2⟩
  · rintro ⟨⟨h1, h2⟩, h3⟩
    exact ⟨by omega, h3⟩

/-- Claim C4 (amended): with the jurisdiction argument absent, a date is a
working day iff its weekday is Monday-Friday and it is not in the oracle's
holiday set for the absent jurisdiction — the set `holidays.Australia`
builds with `prov=None`, which still contains the national holidays, so a
holiday exclusion does remain. -/
theorem is_working_day_none_iff (H : HolidaySource) (date : Nat) :
    is_working_day H date none = true ↔
      weekday date < 5 ∧ get_holidays H none date = false := by
  simp only [is_working_day, Bool.and_eq_true, decide_eq_true_eq,
    Bool.not_eq_true']

/-- Claim C4 counterexample: 2024-01-01 is a Monday, yet with the
jurisdiction argument absent the oracle instance recording New Year's Day as
a national holiday makes `is_working_day` false — so "weekday Monday-Friday"
alone does not characterize `is_working_day date None`. -/
theorem absent_state_holiday_cex :
    ¬ (is_working_day specHolidays (toOrdinal 2024 1 1) none = true ↔
        weekday (toOrdinal 2024 1 1) < 5) := by decide

/-- Claim C8: for every validated range and jurisdiction argument, the
`working_days` list is strictly ascending, has no duplicates, and every
element lies in the inclusive interval. -/
theorem list_sorted_bounded (H : HolidaySource) (s e : Nat) (st : Option String)
    (h : s ≤ e) :
    (working_days_list H s e st).Pairwise (· < ·) ∧
    (working_days_list H s e st).Nodup ∧
    ∀ x ∈ working_days_list H s e st, s ≤ x ∧ x ≤ e := by
  have hp : (working_days_list H s e st).Pairwise (· < ·) := by
    unfold working_days_list
    rw [List.pairwise_map]
    exact ((List.pairwise_lt_range _).sublist (List.filter_sublist _)).imp
      (fun hab => by omega)
  refine ⟨hp, hp.imp (fun hab => by omega), ?_⟩
  intro x hx
  unfold working_days_list at hx
  simp only [List.mem_map, List.mem_filter, List.mem_range] at hx
  obtain ⟨a, ⟨ha, _⟩, rfl⟩ := hx
  rw [rangeLen_of_le h] at ha
  omega

theorem list_sorted_bounded_witness :
    (working_days_list specHolidays (toOrdinal 2024 1 1) (toOrdinal 2024 1 7)
        (some "NSW")).Pairwise (· < ·) ∧
    (working_days_list specHolidays (toOrdinal 2024 1 1) (toOrdinal 2024 1 7)
        (some "NSW")).Nodup ∧
    ∀ x ∈ working_days_list specHolidays (toOrdinal 2024 1 1) (toOrdinal 2024 1 7)
        (some "NSW"), toOrdinal 2024 1 1 ≤ x ∧ x ≤ toOrdinal 2024 1 7 :=
  list_sorted_bounded specHolidays _ _ _ (by decide)

/-- Claim C9: extending the validated range on the right never decreases the
count of working days. -/
theorem count_monotone (H : HolidaySource) (s e ep : Nat) (st : Option String)
    (h1 : s ≤ e) (h2 : e < ep) :
    count_working_days H s e st ≤ count_working_days H s ep st := by
  unfold count_working_days
  exact (List.range_sublist.mpr (rangeLen_mono (by omega))).countP_le _

theorem count_monotone_witness :
    count_working_days specHolidays (toOrdinal 2024 1 1) (toOrdinal 2024 1 7)
        (some "NSW")
      ≤ count_working_days specHolidays (toOrdinal 2024 1 1) (toOrdinal 2024 1 14)
        (some "NSW") :=
  count_monotone specHolidays _ _ _ _ (by decide) (by decide)

/-! ## Claims about the HTTP endpoints -/

theorem intercalate_states :
    "Invalid state. Must be one of " ++ String.intercalate ", " AUSTRALIAN_STATES
      = "Invalid state. Must be one of ACT, NSW, NT, QLD, SA, TAS, VIC, WA" := rfl

theorem invalidState_of_bad {t : String} (ht : t ≠ "") (hm : t ∉ AUSTRALIAN_STATES) :
    invalidState (some t) = true := by
  simp [invalidState, ht, hm]

/-- Claim C5: with both dates successfully parsed and start strictly after
end, both endpoints fail with exactly the inverted-range 400 message, and
with start ≤ end that error is never produced. -/
theorem inverted_range_rejected (H : HolidaySource) (sd ed : String)
    (st : Option String) (s e : Nat)
    (h1 : parse_date sd = .ok s) (h2 : parse_date ed = .ok e) :
    (e < s →
      get_working_days H sd ed st
          = .error ⟨400, "Start date must be before or equal to end date"⟩ ∧
      get_working_days_list H sd ed st
          = .error ⟨400, "Start date must be before or equal to end date"⟩) ∧
    (s ≤ e →
      get_working_days H sd ed st
          ≠ .error ⟨400, "Start date must be before or equal to end date"⟩ ∧
      get_working_days_list H sd ed st
          ≠ .error ⟨400, "Start date must be before or equal to end date"⟩) := by
  constructor
  · intro hlt
    constructor
    · simp only [get_working_days, h1, h2]
      rw [if_pos hlt]
    · simp only [get_working_days_list, h1, h2]
      rw [if_pos hlt]
  · intro hle
    constructor
    · simp only [get_working_days, h1, h2]
      rw [if_neg (by omega : ¬ s > e)]
      split
      · intro hc
        simp only [Except.error.injEq, HTTPException.mk.injEq] at hc
        exact absurd hc.2 (by decide)
      · simp
    · simp only [get_working_days_list, h1, h2]
      rw [if_neg (by omega : ¬ s > e)]
      split
      · intro hc
        simp only [Except.error.injEq, HTTPException.mk.injEq] at hc
        exact absurd hc.2 (by decide)
      · simp

theorem inverted_range_rejected_witness :
    toOrdinal 2024 5 1 < toOrdinal 2024 5 10 ∧
    (get_working_days specHolidays "2024-05-10" "2024-05-01" none
        = .error ⟨400, "Start date must be before or equal to end date"⟩ ∧
     get_working_days_list specHolidays "2024-05-10" "2024-05-01" none
        = .error ⟨400, "Start date must be before or equal to end date"⟩) :=
  ⟨by decide,
    (inverted_range_rejected specHolidays "2024-05-10" "2024-05-01" none
        (toOrdinal 2024 5 10) (toOrdinal 2024 5 1) rfl rfl).1 (by decide)⟩

/-- Claim C6 (amended): with both dates parsed and start ≤ end, a non-empty
state not among the 8 codes makes both endpoints fail with the 400 message
listing all 8 codes; an absent state is forwarded as `None`; an **empty**
state skips the check and the empty string itself — not `None` — is
forwarded to the engine and oracle. -/
theorem state_validation_amended (H : HolidaySource) (sd ed : String)
    (st : Option String) (s e : Nat)
    (h1 : parse_date sd = .ok s) (h2 : parse_date ed = .ok e) (h3 : s ≤ e) :
    (∀ t, st = some t → t ≠ "" → t ∉ AUSTRALIAN_STATES →
      get_working_days H sd ed st
          = .error ⟨400, "Invalid state. Must be one of ACT, NSW, NT, QLD, SA, TAS, VIC, WA"⟩ ∧
      get_working_days_list H sd ed st
          = .error ⟨400, "Invalid state. Must be one of ACT, NSW, NT, QLD, SA, TAS, VIC, WA"⟩) ∧
    (st = none → get_working_days H sd ed st = .ok (count_working_days H s e none)) ∧
    (st = some "" →
      get_working_days H sd ed st = .ok (count_working_days H s e (some ""))) := by
  refine ⟨?_, ?_, ?_⟩
  · rintro t rfl ht hm
    have hbad : invalidState (some t) = true := invalidState_of_bad ht hm
    constructor
    · simp only [get_working_days, h1, h2]
      rw [if_neg (by omega : ¬ s > e), if_pos hbad, intercalate_states]
    · simp only [get_working_days_list, h1, h2]
      rw [if_neg (by omega : ¬ s > e), if_pos hbad, intercalate_states]
  · rintro rfl
    simp only [get_working_days, h1, h2]
    rw [if_neg (by omega : ¬ s > e), if_neg (by simp [invalidState])]
  · rintro rfl
    simp only [get_working_days, h1, h2]
    rw [if_neg (by omega : ¬ s > e), if_neg (by simp [invalidState])]

theorem state_validation_amended_witness :
    toOrdinal 2024 5 1 ≤ toOrdinal 2024 5 10 ∧
    (get_working_days specHolidays "2024-05-01" "2024-05-10" (some "XX")
        = .error ⟨400, "Invalid state. Must be one of ACT, NSW, NT, QLD, SA, TAS, VIC, WA"⟩ ∧
     get_working_days_list specHolidays "2024-05-01" "2024-05-10" (some "XX")
        = .error ⟨400, "Invalid state. Must be one of ACT, NSW, NT, QLD, SA, TAS, VIC, WA"⟩) :=
  ⟨by decide,
    (state_validation_amended specHolidays "2024-05-01" "2024-05-10" (some "XX")
        (toOrdinal 2024 5 1) (toOrdinal 2024 5 10) rfl rfl (by decide)).1
      "XX" rfl (by decide) (by decide)⟩

/-- Claim C6 counterexample: a request whose state parameter is the empty
string is not rejected, and under an oracle distinguishing the jurisdiction
argument `some ""` from `none` it computes a different result than the same
request with the state absent — so validation does not turn the empty string
into `None`. -/
theorem empty_state_not_none_cex :
    get_working_days emptyFlagOracle "2024-01-02" "2024-01-02" (some "") = .ok 0 ∧
    get_working_days emptyFlagOracle "2024-01-02" "2024-01-02" none = .ok 1 ∧
    (Except.ok 0 : Except HTTPException Nat) ≠ .ok 1 :=
  ⟨rfl, rfl, by simp⟩

/-- Claim C10: when the state query parameter is present but empty, the
unknown-jurisdiction check is skipped (Python truthiness), no 400 is
returned, and the empty string itself — not `None` — is the jurisdiction
argument the engine and oracle receive. -/
theorem empty_state_passthrough (H : HolidaySource) (sd ed : String) (s e : Nat)
    (h1 : parse_date sd = .ok s) (h2 : parse_date ed = .ok e) (h3 : s ≤ e) :
    get_working_days H sd ed (some "") = .ok (count_working_days H s e (some "")) ∧
    get_working_days_list H sd ed (some "")
      = .ok ((working_days_list H s e (some "")).map strftimeYMD) := by
  constructor
  · simp only [get_working_days, h1, h2]
    rw [if_neg (by omega : ¬ s > e), if_neg (by simp [invalidState])]
  · simp only [get_working_days_list, h1, h2]
    rw [if_neg (by omega : ¬ s > e), if_neg (by simp [invalidState])]

theorem empty_state_passthrough_witness :
    get_working_days emptyFlagOracle "2024-01-03" "2024-01-03" (some "")
      = .ok (count_working_days emptyFlagOracle (toOrdinal 2024 1 3)
              (toOrdinal 2024 1 3) (some "")) ∧
    get_working_days_list emptyFlagOracle "2024-01-03" "2024-01-03" (some "")
      = .ok ((working_days_list emptyFlagOracle (toOrdinal 2024 1 3)
              (toOrdinal 2024 1 3) (some "")).map strftimeYMD) :=
  empty_state_passthrough emptyFlagOracle "2024-01-03" "2024-01-03"
    (toOrdinal 2024 1 3) (toOrdinal 2024 1 3) rfl rfl (by decide)

/-- Claim C3 (amended): the service has no supported-year-span check.  For
any successfully parsed range with start ≤ end and a state that passes the
jurisdiction guard, `get_working_days` returns the computed count — also
when the years lie outside the oracle's precomputed 2000-2049 span; no
`UnsupportedYearRange` 400 error exists in the code. -/
theorem working_days_no_year_guard (H : HolidaySource) (sd ed : String)
    (st : Option String) (s e : Nat)
    (h1 : parse_date sd = .ok s) (h2 : parse_date ed = .ok e) (h3 : s ≤ e)
    (h4 : invalidState st = false) :
    get_working_days H sd ed st = .ok (count_working_days H s e st) := by
  simp only [get_working_days, h1, h2]
  rw [if_neg (by omega : ¬ s > e), if_neg (by simp [h4])]

theorem working_days_no_year_guard_witness :
    get_working_days specHolidays "2060-01-01" "2060-01-02" none
      = .ok (count_working_days specHolidays (toOrdinal 2060 1 1)
              (toOrdinal 2060 1 2) none) :=
  working_days_no_year_guard specHolidays "2060-01-01" "2060-01-02" none
    (toOrdinal 2060 1 1) (toOrdinal 2060 1 2) rfl rfl (by decide) rfl

/-- Claim C3 counterexample: a request whose endpoints lie in 2060 — outside
the oracle's 2000-2049 span — is answered with a 200 result (here count 1:
2060-01-01 is a Thursday but New Year's Day, 2060-01-02 a Friday), not with
an `UnsupportedYearRange` 400 error. -/
theorem no_year_range_check_cex :
    get_working_days specHolidays "2060-01-01" "2060-01-02" none = .ok 1 := rfl

/-! ## Claims about the date parser -/

theorem digitVal_le_nine {c : Char} (h : c.isDigit = true) : digitVal c ≤ 9 := by
  simp only [Char.isDigit, Bool.and_eq_true, decide_eq_true_eq] at h
  obtain ⟨h1, h2⟩ := h
  have g2 : c.val.toNat ≤ 57 := h2
  unfold digitVal Char.toNat
  omega

theorem digit_ne_dash {c : Char} (h : c.isDigit = true) : ¬ (c = '-') := by
  intro hc; subst hc; exact absurd h (by decide)

theorem digitsToNat_one (a : Char) : digitsToNat [a] = digitVal a := by
  simp [digitsToNat]

theorem digitsToNat_two (a b : Char) :
    digitsToNat [a, b] = digitVal a * 10 + digitVal b := by
  simp [digitsToNat]

theorem digitsToNat_four (a b c d : Char) :
    digitsToNat [a, b, c, d]
      = ((digitVal a * 10 + digitVal b) * 10 + digitVal c) * 10 + digitVal d := by
  simp [digitsToNat]

theorem readMonthDash_eq_some {l : List Char} {m : Nat} {r : List Char} :
    readMonthDash l = some (m, r) ↔
      (∃ a, l = a :: '-' :: r ∧ a.isDigit = true ∧ 1 ≤ digitVal a ∧
        m = digitVal a) ∨
      (∃ a b, l = a :: b :: '-' :: r ∧ a.isDigit = true ∧ b.isDigit = true ∧
        1 ≤ digitVal a * 10 + digitVal b ∧ digitVal a * 10 + digitVal b ≤ 12 ∧
        m = digitVal a * 10 + digitVal b) := by
  constructor
  · intro h
    rcases l with _ | ⟨a, l⟩
    · simp [readMonthDash] at h
    rcases l with _ | ⟨b, l⟩
    · simp [readMonthDash] at h
    rcases l with _ | ⟨c, rest⟩
    · simp only [readMonthDash] at h
      split_ifs at h with hb hg
      · obtain ⟨ha, h1⟩ := hg
        simp only [Option.some.injEq, Prod.mk.injEq] at h
        obtain ⟨rfl, rfl⟩ := h
        exact Or.inl ⟨a, by rw [hb], ha, h1, rfl⟩
    · simp only [readMonthDash] at h
      split_ifs at h with hb hg hc hg2
      · obtain ⟨ha, h1⟩ := hg
        simp only [Option.some.injEq, Prod.mk.injEq] at h
        obtain ⟨rfl, rfl⟩ := h
        exact Or.inl ⟨a, by rw [hb], ha, h1, rfl⟩
      · obtain ⟨ha, hbd, h1, h2⟩ := hg2
        simp only [Option.some.injEq, Prod.mk.injEq] at h
        obtain ⟨rfl, rfl⟩ := h
        exact Or.inr ⟨a, b, by rw [hc], ha, hbd, h1, h2, rfl⟩
  · rintro (⟨a, rfl, ha, h1, rfl⟩ | ⟨a, b, rfl, ha, hb, h1, h2, rfl⟩)
    · rcases r with _ | ⟨c, rest⟩
      · simp [readMonthDash, ha, h1]
      · simp [readMonthDash, ha, h1]
    · simp [readMonthDash, digit_ne_dash hb, ha, hb, h1, h2]

theorem readDayEnd_eq_some {l : List Char} {d : Nat} :
    readDayEnd l = some d ↔
      (∃ a, l = [a] ∧ a.isDigit = true ∧ 1 ≤ digitVal a ∧ d = digitVal a) ∨
      (∃ a b, l = [a, b] ∧ a.isDigit = true ∧ b.isDigit = true ∧
        1 ≤ digitVal a * 10 + digitVal b ∧ digitVal a * 10 + digitVal b ≤ 31 ∧
        d = digitVal a * 10 + digitVal b) := by
  constructor
  · intro h
    rcases l with _ | ⟨a, l⟩
    · simp [readDayEnd] at h
    rcases l with _ | ⟨b, l⟩
    · simp only [readDayEnd] at h
      split_ifs at h with hg
      obtain ⟨ha, h1⟩ := hg
      simp only [Option.some.injEq] at h
      exact Or.inl ⟨a, rfl, ha, h1, h.symm⟩
    rcases l with _ | ⟨c, rest⟩
    · simp only [readDayEnd] at h
      split_ifs at h with hg
      obtain ⟨ha, hb, h1, h2⟩ := hg
      simp only [Option.some.injEq] at h
      exact Or.inr ⟨a, b, rfl, ha, hb, h1, h2, h.symm⟩
    · simp [readDayEnd] at h
  · rintro (⟨a, rfl, ha, h1, rfl⟩ | ⟨a, b, rfl, ha, hb, h1, h2, rfl⟩)
    · simp [readDayEnd, ha, h1]
    · simp [readDayEnd, ha, hb, h1, h2]

theorem strptimeYMD_eq_some {l : List Char} {y m d : Nat} :
    strptimeYMD l = some (y, m, d) ↔ LenientYMD l y m d := by
  constructor
  · intro h
    rcases l with _ | ⟨y1, l⟩
    · simp [strptimeYMD] at h
    rcases l with _ | ⟨y2, l⟩
    · simp [strptimeYMD] at h
    rcases l with _ | ⟨y3, l⟩
    · simp [strptimeYMD] at h
    rcases l with _ | ⟨y4, l⟩
    · simp [strptimeYMD] at h
    rcases l with _ | ⟨s5, rest⟩
    · simp [strptimeYMD] at h
    simp only [strptimeYMD] at h
    split_ifs at h with hg
    obtain ⟨rfl, hy1, hy2, hy3, hy4⟩ := hg
    rcases hmd : readMonthDash rest with _ | ⟨mv, r2⟩
    · simp [hmd] at h
    simp only [hmd] at h
    rcases hde : readDayEnd r2 with _ | dv
    · simp [hde] at h
    simp only [hde, Option.some.injEq, Prod.mk.injEq] at h
    obtain ⟨hy, hm, hd⟩ := h
    rcases readMonthDash_eq_some.mp hmd with
        ⟨a, rfl, ha, h1, rfl⟩ | ⟨a, b, rfl, ha, hb, h1, h2, rfl⟩ <;>
      rcases readDayEnd_eq_some.mp hde with
          ⟨a2, rfl, ha2, g1, rfl⟩ | ⟨a2, b2, rfl, ha2, hb2, g1, g2, rfl⟩
    · exact ⟨y1, y2, y3, y4, [a], [a2], rfl, hy1, hy2, hy3, hy4,
        by simp [ha], Or.inl rfl, by simp [ha2], Or.inl rfl,
        by rw [← hy, digitsToNat_four],
        by rw [← hm, digitsToNat_one], by omega,
        by rw [← hm]; have := digitVal_le_nine ha; omega,
        by rw [← hd, digitsToNat_one], by omega,
        by rw [← hd]; have := digitVal_le_nine ha2; omega⟩
    · exact ⟨y1, y2, y3, y4, [a], [a2, b2], rfl, hy1, hy2, hy3, hy4,
        by simp [ha], Or.inl rfl, by simp [ha2, hb2], Or.inr rfl,
        by rw [← hy, digitsToNat_four],
        by rw [← hm, digitsToNat_one], by omega,
        by rw [← hm]; have := digitVal_le_nine ha; omega,
        by rw [← hd, digitsToNat_two], by omega, by omega⟩
    · exact ⟨y1, y2, y3, y4, [a, b], [a2], rfl, hy1, hy2, hy3, hy4,
        by simp [ha, hb], Or.inr rfl, by simp [ha2], Or.inl rfl,
        by rw [← hy, digitsToNat_four],
        by rw [← hm, digitsToNat_two], by omega, by omega,
        by rw [← hd, digitsToNat_one], by omega,
        by rw [← hd]; have := digitVal_le_nine ha2; omega⟩
    · exact ⟨y1, y2, y3, y4, [a, b], [a2, b2], rfl, hy1, hy2, hy3, hy4,
        by simp [ha, hb], Or.inr rfl, by simp [ha2, hb2], Or.inr rfl,
        by rw [← hy, digitsToNat_four],
        by rw [← hm, digitsToNat_two], by omega, by omega,
        by rw [← hd, digitsToNat_two], by omega, by omega⟩
  · rintro ⟨y1, y2, y3, y4, mc, dc, rfl, hy1, hy2, hy3, hy4,
      hmcd, hmlen, hdcd, hdlen, hy, hm, hm1, hm2, hd, hd1, hd2⟩
    have hmd : readMonthDash (mc ++ '-' :: dc) = some (m, dc) := by
      rcases hmlen with hl1 | hl2
      · obtain ⟨a, rfl⟩ := List.length_eq_one.mp hl1
        have ha : a.isDigit = true := hmcd a (by simp)
        refine readMonthDash_eq_some.mpr (Or.inl ⟨a, rfl, ha, ?_, ?_⟩)
        · rw [hm, digitsToNat_one] at hm1; exact hm1
        · rw [hm, digitsToNat_one]
      · obtain ⟨a, b, rfl⟩ := List.length_eq_two.mp hl2
        have ha : a.isDigit = true := hmcd a (by simp)
        have hb : b.isDigit = true := hmcd b (by simp)
        refine readMonthDash_eq_some.mpr (Or.inr ⟨a, b, rfl, ha, hb, ?_, ?_, ?_⟩)
        · rw [hm, digitsToNat_two] at hm1; exact hm1
        · rw [hm, digitsToNat_two] at hm2; exact hm2
        · rw [hm, digitsToNat_two]
    have hde : readDayEnd dc = some d := by
      rcases hdlen with hl1 | hl2
      · obtain ⟨a, rfl⟩ := List.length_eq_one.mp hl1
        have ha : a.isDigit = true := hdcd a (by simp)
        refine readDayEnd_eq_some.mpr (Or.inl ⟨a, rfl, ha, ?_, ?_⟩)
        · rw [hd, digitsToNat_one] at hd1; exact hd1
        · rw [hd, digitsToNat_one]
      · obtain ⟨a, b, rfl⟩ := List.length_eq_two.mp hl2
        have ha : a.isDigit = true := hdcd a (by simp)
        have hb : b.isDigit = true := hdcd b (by simp)
        refine readDayEnd_eq_some.mpr (Or.inr ⟨a, b, rfl, ha, hb, ?_, ?_, ?_⟩)
        · rw [hd, digitsToNat_two] at hd1; exact hd1
        · rw [hd, digitsToNat_two] at hd2; exact hd2
        · rw [hd, digitsToNat_two]
    rw [hy, digitsToNat_four]
    simp [strptimeYMD, hy1, hy2, hy3, hy4, hmd, hde]

/-- Claim C7 (amended): `parse_date` succeeds exactly on the lenient
`%Y-%m-%d` shape — four year digits but a month and day of one **or** two
digits — that also denotes a real calendar date (`1 ≤ year` and the day
within the month's length), returning its ordinal; every failure carries
exactly the 400 message "Invalid date format. Use YYYY-MM-DD".  The fixed
zero-padded pattern of the original claim is sufficient but not necessary
for acceptance. -/
theorem parse_date_amended (s : String) :
    (∀ n, parse_date s = .ok n ↔
      ∃ y m d, LenientYMD s.data y m d ∧ 1 ≤ y ∧ d ≤ daysInMonth y m ∧
        n = toOrdinal y m d) ∧
    (parse_date s = .error ⟨400, "Invalid date format. Use YYYY-MM-DD"⟩ ∨
      ∃ n, parse_date s = .ok n) := by
  constructor
  · intro n
    constructor
    · intro h
      unfold parse_date at h
      rcases hs : strptimeYMD s.data with _ | ⟨⟨y0, m0, d0⟩⟩
      · simp [hs] at h
      · simp only [hs] at h
        split_ifs at h with hv
        simp only [Except.ok.injEq] at h
        exact ⟨y0, m0, d0, strptimeYMD_eq_some.mp hs, hv.1, hv.2, h.symm⟩
    · rintro ⟨y, m, d, hl, h1, h2, rfl⟩
      have hs := strptimeYMD_eq_some.mpr hl
      unfold parse_date
      simp only [hs]
      rw [if_pos ⟨h1, h2⟩]
  · unfold parse_date
    rcases hs : strptimeYMD s.data with _ | ⟨⟨y0, m0, d0⟩⟩
    · left; simp only [hs]
    · simp only [hs]
      split_ifs with hv
      · exact Or.inr ⟨_, rfl⟩
      · exact Or.inl rfl

/-- Claim C7 counterexample: `parse_date` accepts "2024-1-5" — a string that
does not match the fixed zero-padded `YYYY-MM-DD` pattern — so failure is
not equivalent to "does not match the fixed pattern or is not a real
calendar date". -/
theorem parse_date_lenient_cex :
    matchesFixedYMD "2024-1-5" = false ∧
    parse_date "2024-1-5" = .ok (toOrdinal 2024 1 5) := ⟨rfl, rfl⟩
